import Mathlib

/-!
Shallow embedding of the albumshare application: the albums listing page
(search, date filtering, like aggregation), the like/unlike server actions,
and the OAuth callback handler, together with theorems about the claims
made by the design specification.
-/

namespace AlbumShare

/-- Row of the `albums` table as selected by the listing page
(`id, album, artist, release_date, cover_url`); all columns but the id are
nullable. -/
structure AlbumRow where
  id : Int
  album : Option String
  artist : Option String
  release_date : Option String
  cover_url : Option String
deriving Repr, DecidableEq

/-- Token of a SQL `LIKE` pattern: `%` (any run of characters), `_` (exactly
one character), or a literal character (either an unescaped ordinary
character or any character preceded by a backslash escape). -/
inductive LikeTok where
  | anyRun : LikeTok
  | anyOne : LikeTok
  | lit : Char → LikeTok
deriving Repr, DecidableEq

/-- Tokenize a `LIKE` pattern: a backslash escapes the following character,
`%` and `_` are the two metacharacters, everything else is literal.
(Postgres rejects a pattern ending in a bare backslash; the patterns the
page builds never do, so that corner is mapped to a literal backslash.) -/
def lexLike : List Char → List LikeTok
  | [] => []
  | '\\' :: [] => [LikeTok.lit '\\']
  | '\\' :: x :: p => LikeTok.lit x :: lexLike p
  | '%' :: p => LikeTok.anyRun :: lexLike p
  | '_' :: p => LikeTok.anyOne :: lexLike p
  | c :: p => LikeTok.lit c :: lexLike p

/-- Run a tokenized `LIKE` pattern against an input, comparing literal
characters case-insensitively (`Char.toLower` folding on both sides), which
is what `ILIKE` adds over `LIKE`. -/
def likeRun : List LikeTok → List Char → Bool
  | [], s => s.isEmpty
  | LikeTok.anyRun :: p, s => s.tails.any (fun s2 => likeRun p s2)
  | LikeTok.anyOne :: p, s =>
    match s with
    | [] => false
    | _ :: s2 => likeRun p s2
  | LikeTok.lit c :: p, s =>
    match s with
    | [] => false
    | c2 :: s2 => (c.toLower == c2.toLower) && likeRun p s2

/-- Models Postgres `ILIKE`, which the page reaches through the query
builder's `.or("album.ilike.…,artist.ilike.…")` filter. -/
def ilikeMatches (pat s : String) : Bool :=
  likeRun (lexLike pat.data) s.data

/-- `String.replaceAll` for a single-character search pattern, written on the
character list: every occurrence of `t` is replaced by `r`. -/
def replaceAllChar (t : Char) (r : List Char) : List Char → List Char
  | [] => []
  | c :: cs => (if c = t then r else [c]) ++ replaceAllChar t r cs

/-- The page's escaping step (line `const escaped = q.replaceAll("%", "\\%")
.replaceAll("_", "\\_")`). -/
def escapeLike (q : String) : String :=
  String.mk (replaceAllChar '_' ['\\', '_'] (replaceAllChar '%' ['\\', '%'] q.data))

/-- The `ILIKE` pattern the page builds around the escaped query
(`%${escaped}%`). -/
def searchPattern (q : String) : String :=
  "%" ++ escapeLike q ++ "%"

/-- `ILIKE` against a nullable column: a NULL column never matches. -/
def matchesNullable (pat : String) : Option String → Bool
  | none => false
  | some s => ilikeMatches pat s

/-- The row predicate of the page's `.or` search filter: the pattern must
match the album title or the artist name. -/
def albumSearchPred (q : String) (a : AlbumRow) : Bool :=
  matchesNullable (searchPattern q) a.album || matchesNullable (searchPattern q) a.artist

/-- One-pass form of the page's two sequential `replaceAll` calls: prefix
every `%` and `_` with a backslash. -/
def escList : List Char → List Char
  | [] => []
  | c :: cs => (if c = '%' ∨ c = '_' then ['\\', c] else [c]) ++ escList cs

lemma replaceAllChar_append (t : Char) (r : List Char) (a b : List Char) :
    replaceAllChar t r (a ++ b) = replaceAllChar t r a ++ replaceAllChar t r b := by
  induction a with
  | nil => rfl
  | cons c cs ih => simp [replaceAllChar, ih]

lemma replaceAll_eq_escList (l : List Char) :
    replaceAllChar '_' ['\\', '_'] (replaceAllChar '%' ['\\', '%'] l) = escList l := by
  induction l with
  | nil => rfl
  | cons c cs ih =>
    by_cases h1 : c = '%'
    · subst h1
      simp [replaceAllChar, escList, replaceAllChar_append, ih]
    · by_cases h2 : c = '_'
      · subst h2
        simp [replaceAllChar, escList, ih]
      · simp [replaceAllChar, escList, h1, h2, ih]

lemma lexLike_lit {c : Char} (h1 : c ≠ '%') (h2 : c ≠ '_') (h3 : c ≠ '\\')
    (p : List Char) : lexLike (c :: p) = LikeTok.lit c :: lexLike p := by
  rw [lexLike]
  all_goals simp_all

/-- Tokenizing the escaped query followed by a continuation yields one
literal token per query character — provided the query contains no
backslash. -/
lemma lexLike_escList (l : List Char) : ∀ p : List Char, '\\' ∉ l →
    lexLike (escList l ++ p) = l.map LikeTok.lit ++ lexLike p := by
  induction l with
  | nil =>
    intro p _
    simp [escList]
  | cons c cs ih =>
    intro p hl
    have hc : c ≠ '\\' := fun h => hl (h ▸ List.mem_cons_self c cs)
    have hcs : '\\' ∉ cs := fun h => hl (List.mem_cons_of_mem _ h)
    by_cases h1 : c = '%'
    · subst h1
      have he : escList ('%' :: cs) ++ p = '\\' :: '%' :: (escList cs ++ p) := by
        simp [escList]
      rw [he]
      show LikeTok.lit '%' :: lexLike (escList cs ++ p) = _
      rw [ih p hcs]
      simp
    · by_cases h2 : c = '_'
      · subst h2
        have he : escList ('_' :: cs) ++ p = '\\' :: '_' :: (escList cs ++ p) := by
          simp [escList]
        rw [he]
        show LikeTok.lit '_' :: lexLike (escList cs ++ p) = _
        rw [ih p hcs]
        simp
      · have he : escList (c :: cs) ++ p = c :: (escList cs ++ p) := by
          simp [escList, h1, h2]
        rw [he, lexLike_lit h1 h2 hc, ih p hcs]
        simp

lemma likeRun_percent (p : List LikeTok) (s : List Char) :
    likeRun (LikeTok.anyRun :: p) s = true ↔
      ∃ s2, s2 <:+ s ∧ likeRun p s2 = true := by
  show List.any _ _ = true ↔ _
  rw [List.any_eq_true]
  simp [List.mem_tails]

lemma likeRun_single_percent (s : List Char) : likeRun [LikeTok.anyRun] s = true := by
  rw [likeRun_percent]
  exact ⟨[], List.nil_suffix, rfl⟩

/-- Running a block of literal tokens followed by a continuation splits the
input into a case-insensitive copy of the literals and a remainder matched
by the continuation. -/
lemma likeRun_lits (l : List Char) : ∀ (p : List LikeTok) (s : List Char),
    likeRun (l.map LikeTok.lit ++ p) s = true ↔
      ∃ s1 s2, s = s1 ++ s2 ∧ s1.map Char.toLower = l.map Char.toLower ∧
        likeRun p s2 = true := by
  induction l with
  | nil =>
    intro p s
    constructor
    · intro h
      exact ⟨[], s, rfl, rfl, by simpa using h⟩
    · rintro ⟨s1, s2, rfl, h1, h2⟩
      have hs1 : s1 = [] := by simpa using h1
      subst hs1
      simpa using h2
  | cons c cs ih =>
    intro p s
    cases s with
    | nil =>
      constructor
      · intro h
        cases h
      · rintro ⟨s1, s2, heq, h1, h2⟩
        rcases s1 with _ | ⟨d, s1'⟩
        · simp at h1
        · simp at heq
    | cons c2 s2 =>
      show ((c.toLower == c2.toLower) && likeRun (cs.map LikeTok.lit ++ p) s2) = true ↔ _
      constructor
      · intro h
        rw [Bool.and_eq_true, beq_iff_eq] at h
        obtain ⟨heq, hm⟩ := h
        obtain ⟨s1', s2', rfl, hmap, hp⟩ := (ih p s2).mp hm
        exact ⟨c2 :: s1', s2', rfl, by simp [hmap, heq], hp⟩
      · rintro ⟨s1, s2', heq, hmap, hp⟩
        rcases s1 with _ | ⟨d, s1'⟩
        · simp at hmap
        · simp only [List.map_cons, List.cons.injEq] at hmap
          obtain ⟨hd, hmap'⟩ := hmap
          simp only [List.cons_append, List.cons.injEq] at heq
          obtain ⟨rfl, rfl⟩ := heq
          rw [Bool.and_eq_true, beq_iff_eq]
          exact ⟨hd.symm, (ih p _).mpr ⟨s1', s2', rfl, hmap', hp⟩⟩

lemma searchPattern_data (q : String) :
    (searchPattern q).data = '%' :: (escList q.data ++ ['%']) := by
  have h1 : (searchPattern q).data = "%".data ++ (escapeLike q).data ++ "%".data := by
    simp [searchPattern, String.data_append]
  rw [h1]
  have h2 : (escapeLike q).data = escList q.data := by
    simp [escapeLike, replaceAll_eq_escList]
  rw [h2]
  rfl

lemma lexLike_searchPattern (q : String) (hq : '\\' ∉ q.data) :
    lexLike (searchPattern q).data =
      LikeTok.anyRun :: (q.data.map LikeTok.lit ++ [LikeTok.anyRun]) := by
  rw [searchPattern_data]
  show LikeTok.anyRun :: lexLike (escList q.data ++ ['%']) = _
  rw [lexLike_escList q.data ['%'] hq]
  rfl

/-- The page's `%escaped%` pattern, run through `ILIKE`, is exactly
case-insensitive substring containment — for queries that contain no
backslash. -/
lemma ilike_searchPattern (q s : String) (hq : '\\' ∉ q.data) :
    ilikeMatches (searchPattern q) s = true ↔
      ∃ u v, s.data.map Char.toLower = u ++ q.data.map Char.toLower ++ v := by
  rw [ilikeMatches, lexLike_searchPattern q hq, likeRun_percent]
  constructor
  · rintro ⟨s2, ⟨pre, hpre⟩, hm⟩
    obtain ⟨s1, s2', rfl, hmap, -⟩ := (likeRun_lits q.data [LikeTok.anyRun] s2).mp hm
    refine ⟨pre.map Char.toLower, s2'.map Char.toLower, ?_⟩
    rw [← hpre]
    simp [hmap]
  · rintro ⟨u, v, huv⟩
    have huv' : s.data.map Char.toLower = u ++ (q.data.map Char.toLower ++ v) := by
      rw [huv, List.append_assoc]
    obtain ⟨a, bc, hsplit, -, hbc⟩ := List.map_eq_append_iff.mp huv'
    obtain ⟨b, c, hbc2, hb, -⟩ := List.map_eq_append_iff.mp hbc
    subst hbc2
    refine ⟨b ++ c, ⟨a, hsplit.symm⟩, ?_⟩
    exact (likeRun_lits q.data [LikeTok.anyRun] (b ++ c)).mpr
      ⟨b, c, rfl, hb, likeRun_single_percent c⟩

lemma toLower_eq_pct {c : Char} : c.toLower = '%' ↔ c = '%' := by
  constructor
  · intro h
    unfold Char.toLower at h
    by_cases hr : c.toNat ≥ 65 ∧ c.toNat ≤ 90
    · rw [if_pos hr] at h
      exfalso
      have hvalid : (c.toNat + 32).isValidChar := by
        left
        omega
      have hv : (Char.ofNat (c.toNat + 32)).toNat = c.toNat + 32 := by
        rw [Char.ofNat, dif_pos hvalid]
        simp [Char.ofNatAux, Char.toNat, UInt32.toNat]
      rw [h] at hv
      have h37 : ('%' : Char).toNat = 37 := by decide
      omega
    · rwa [if_neg hr] at h
  · intro h
    subst h
    decide

lemma mem_pct_map_toLower (l : List Char) : '%' ∈ l.map Char.toLower ↔ '%' ∈ l := by
  rw [List.mem_map]
  constructor
  · rintro ⟨a, ha, he⟩
    rwa [toLower_eq_pct.mp he] at ha
  · intro h
    exact ⟨'%', h, by decide⟩

/-- Case-insensitive substring containment, the semantics the specification
ascribes to the search filter: the query's characters appear consecutively
in the subject, compared after lower-casing both sides. -/
def ciContains (q s : String) : Prop :=
  ∃ u v, s.data.map Char.toLower = u ++ q.data.map Char.toLower ++ v

lemma matchesNullable_iff (q : String) (hq : '\\' ∉ q.data) (o : Option String) :
    matchesNullable (searchPattern q) o = true ↔ ∃ t, o = some t ∧ ciContains q t := by
  cases o with
  | none => simp [matchesNullable]
  | some t =>
    simp only [matchesNullable, Option.some.injEq]
    rw [ilike_searchPattern q t hq]
    constructor
    · intro h
      exact ⟨t, rfl, h⟩
    · rintro ⟨t2, ht, hc⟩
      subst ht
      exact hc

lemma ciContains_pct (t : String) : ciContains "%" t ↔ '%' ∈ t.data := by
  unfold ciContains
  constructor
  · rintro ⟨u, v, h⟩
    have hm : '%' ∈ t.data.map Char.toLower := by
      rw [h]
      exact List.mem_append_left v (List.mem_append_right u (by decide))
    exact (mem_pct_map_toLower t.data).mp hm
  · intro h
    obtain ⟨u, v, huv⟩ := List.mem_iff_append.mp ((mem_pct_map_toLower t.data).mpr h)
    exact ⟨u, v, by simpa using huv⟩

/-- C1 (amended: the substring reading additionally needs the query to
contain no backslash, which the page does not escape). For a trimmed query
of length ≥ 1 without backslashes, the search filter holds on a row exactly
when the query is a case-insensitive substring of the album title or of the
artist name (a NULL column never matches); and a search for the literal
string "%" matches exactly the rows whose title or artist contains a
literal % character. -/
theorem c1_search_is_ci_substring (q : String) (hlen : 1 ≤ q.length)
    (hq : '\\' ∉ q.data) (a : AlbumRow) :
    (albumSearchPred q a = true ↔
      (∃ t, a.album = some t ∧ ciContains q t) ∨
      (∃ t, a.artist = some t ∧ ciContains q t)) ∧
    (albumSearchPred "%" a = true ↔
      (∃ t, a.album = some t ∧ '%' ∈ t.data) ∨
      (∃ t, a.artist = some t ∧ '%' ∈ t.data)) := by
  have hpct : '\\' ∉ ("%" : String).data := by decide
  constructor
  · rw [albumSearchPred, Bool.or_eq_true, matchesNullable_iff q hq,
      matchesNullable_iff q hq]
  · rw [albumSearchPred, Bool.or_eq_true, matchesNullable_iff "%" hpct,
      matchesNullable_iff "%" hpct]
    simp only [ciContains_pct]

/-- A concrete row whose title contains (in fact ends with) a literal `%`. -/
def pctRow : AlbumRow :=
  { id := 1, album := some "100%", artist := none, release_date := none, cover_url := none }

/-- A concrete row for exercising the search theorem. -/
def artRow : AlbumRow :=
  { id := 2, album := some "Heart", artist := none, release_date := none, cover_url := none }

theorem c1_search_is_ci_substring_witness :
    (1 ≤ ("art" : String).length ∧ '\\' ∉ ("art" : String).data) ∧
    albumSearchPred "art" artRow = true := by
  refine ⟨by decide, ?_⟩
  have h := (c1_search_is_ci_substring "art" (by decide) (by decide) artRow).1
  apply h.mpr
  left
  exact ⟨"Heart", rfl, ['h', 'e'], [], by decide⟩

/-- C1 as frozen is false: the page escapes only `%` and `_`, not the
backslash, so the backslash in the query keeps its `LIKE` escape role. The
one-character query `"\"` (length 1 after trimming) matches the row titled
`"100%"` even though `"\"` is not a case-insensitive substring of
`"100%"`. -/
theorem c1_counterexample :
    1 ≤ ("\\" : String).length ∧
    albumSearchPred "\\" pctRow = true ∧
    ¬ ciContains "\\" "100%" := by
  refine ⟨by decide, by decide, ?_⟩
  rintro ⟨u, v, h⟩
  have hm : ('\\' : Char) ∈ ("100%" : String).data.map Char.toLower := by
    rw [h]
    exact List.mem_append_left v (List.mem_append_right u (by decide))
  revert hm
  decide

/-- Zero-pad a number to two digits, as `Date.toISOString` renders month and
day fields. -/
def pad2 (n : Nat) : String :=
  if n < 10 then "0" ++ toString n else toString n

/-- Zero-pad a year to four digits, as `Date.toISOString` renders the year
field (for the years 0–9999 the page can meet). -/
def pad4 (n : Nat) : String :=
  if n < 10 then "000" ++ toString n
  else if n < 100 then "00" ++ toString n
  else if n < 1000 then "0" ++ toString n
  else toString n

/-- `toISOString().slice(0, 10)`: the `YYYY-MM-DD` date part. -/
def isoDate (y m d : Nat) : String :=
  pad4 y ++ "-" ++ pad2 m ++ "-" ++ pad2 d

/-- The page's `monthRangeUTC(year, month)` (part_000 lines 16–23):
`Date.UTC(year, month - 1, 1)` and `Date.UTC(year, month, 1)` rendered as
ISO date strings. JavaScript normalizes an out-of-range month index by
carrying it into the year, which for the non-negative integers the page
produces is division and remainder by 12. -/
def monthRangeUTC (year month : Nat) : String × String :=
  (isoDate (year + (month - 1) / 12) ((month - 1) % 12 + 1) 1,
   isoDate (year + month / 12) (month % 12 + 1) 1)

/-- `yearStr ? Number(yearStr) : null` for the digit-string parameters the
page's own controls produce: the empty string maps to null, a numeral to
its value, a non-numeral to none (standing for `NaN`, which the page's
truthiness tests treat like null). -/
def toSelected (s : String) : Option Nat :=
  if s = "" then none else s.toNat?

/-- JavaScript truthiness of `number | null`: null, 0 (and NaN, see
`toSelected`) are falsy. -/
def jsTruthy : Option Nat → Bool
  | none => false
  | some n => n != 0

/-- The date-range restriction the page attaches to the album query
(part_000 lines 99–106): `.gte("release_date", startISO)` and
`.lt("release_date", endISO)` for the returned pair, or no restriction. -/
def dateFilter (selectedYear selectedMonth : Option Nat) : Option (String × String) :=
  if jsTruthy selectedYear && jsTruthy selectedMonth then
    some (monthRangeUTC (selectedYear.getD 0) (selectedMonth.getD 0))
  else if jsTruthy selectedYear && !jsTruthy selectedMonth then
    some (toString (selectedYear.getD 0) ++ "-01-01",
      toString (selectedYear.getD 0 + 1) ++ "-01-01")
  else none

/-- Row predicate of the date restriction: `gte`/`lt` compare the row's
release date against the ISO bounds (ISO date strings compare like the
dates they denote); a NULL release date satisfies neither comparison. -/
def datePred (f : Option (String × String)) (a : AlbumRow) : Bool :=
  match f with
  | none => true
  | some (lo, hi) =>
    match a.release_date with
    | none => false
    | some d => decide (lo ≤ d) && decide (d < hi)

/-- The page's `qMin` constant. -/
def qMin : Nat := 1

/-- The full row predicate of the album query: the search filter when the
trimmed query reaches `qMin`, plus the date restriction. -/
def albumQueryPred (q : String) (selY selM : Option Nat) (a : AlbumRow) : Bool :=
  (if qMin ≤ q.length then albumSearchPred q a else true)
    && datePred (dateFilter selY selM) a

/-- Comparator of `.order("release_date", { ascending: false })`: later
dates first; Postgres places NULLs first in descending order. -/
def releaseDescLE (a b : AlbumRow) : Bool :=
  match a.release_date, b.release_date with
  | none, _ => true
  | some _, none => false
  | some x, some y => decide (y ≤ x)

/-- Executing the album query: filter, order by release date descending,
cap at 200 rows (`.limit(200)`). -/
def executeAlbumQuery (albums : List AlbumRow) (q : String)
    (selY selM : Option Nat) : List AlbumRow :=
  (((albums.filter (albumQueryPred q selY selM)).mergeSort releaseDescLE).take 200)

/-- C2: with a year and a month selected the restriction is the half-open
interval from the first day of that month to the first day of the next
month (December rolling over to January of the following year), and with
only a year selected it is January 1 of that year to January 1 of the
next. -/
theorem c2_date_ranges (y m : Nat) (hy : 1 ≤ y) (hm1 : 1 ≤ m) (hm2 : m ≤ 12) :
    dateFilter (some y) (some m) =
      some (isoDate y m 1,
        if m = 12 then isoDate (y + 1) 1 1 else isoDate y (m + 1) 1) ∧
    dateFilter (some y) none =
      some (toString y ++ "-01-01", toString (y + 1) ++ "-01-01") ∧
    (∀ a : AlbumRow, datePred (dateFilter (some y) (some m)) a = true ↔
      ∃ d, a.release_date = some d ∧ isoDate y m 1 ≤ d ∧
        d < (if m = 12 then isoDate (y + 1) 1 1 else isoDate y (m + 1) 1)) := by
  have hty : jsTruthy (some y) = true := by
    simp [jsTruthy]
    omega
  have htm : jsTruthy (some m) = true := by
    simp [jsTruthy]
    omega
  have hrange : monthRangeUTC y m =
      (isoDate y m 1, if m = 12 then isoDate (y + 1) 1 1 else isoDate y (m + 1) 1) := by
    by_cases h12 : m = 12
    · subst h12
      simp [monthRangeUTC]
    · have hlt : m < 12 := by omega
      have e1 : (m - 1) / 12 = 0 := Nat.div_eq_of_lt (by omega)
      have e2 : (m - 1) % 12 = m - 1 := Nat.mod_eq_of_lt (by omega)
      have e3 : m / 12 = 0 := Nat.div_eq_of_lt (by omega)
      have e4 : m % 12 = m := Nat.mod_eq_of_lt (by omega)
      have e5 : m - 1 + 1 = m := by omega
      simp [monthRangeUTC, e1, e2, e3, e4, e5, h12]
  have h1 : dateFilter (some y) (some m) =
      some (isoDate y m 1,
        if m = 12 then isoDate (y + 1) 1 1 else isoDate y (m + 1) 1) := by
    rw [dateFilter]
    rw [hty, htm]
    simp [hrange]
  refine ⟨h1, ?_, ?_⟩
  · rw [dateFilter]
    rw [hty]
    simp [jsTruthy]
  · intro a
    rw [h1]
    cases hrel : a.release_date with
    | none => simp [datePred, hrel]
    | some d => simp [datePred, hrel]

theorem c2_date_ranges_witness :
    (1 ≤ 2024 ∧ 1 ≤ 3 ∧ 3 ≤ 12) ∧
    dateFilter (some 2024) (some 3) = some ("2024-03-01", "2024-04-01") ∧
    dateFilter (some 2024) none = some ("2024-01-01", "2025-01-01") := by
  refine ⟨by omega, ?_, ?_⟩
  · have h := (c2_date_ranges 2024 3 (by omega) (by omega) (by omega)).1
    rw [h]
    decide
  · have h := (c2_date_ranges 2024 3 (by omega) (by omega) (by omega)).2.1
    rw [h]
    decide

lemma releaseDescLE_trans (a b c : AlbumRow)
    (hab : releaseDescLE a b = true) (hbc : releaseDescLE b c = true) :
    releaseDescLE a c = true := by
  unfold releaseDescLE at *
  cases ha : a.release_date <;> cases hb : b.release_date <;>
    cases hc : c.release_date <;> simp_all
  exact le_trans hbc hab

lemma releaseDescLE_total (a b : AlbumRow) :
    (releaseDescLE a b || releaseDescLE b a) = true := by
  unfold releaseDescLE
  cases ha : a.release_date <;> cases hb : b.release_date <;> simp_all
  exact le_total _ _

/-- C8: whatever the text and date filters, the executed album query is
ordered by release date descending and returns at most 200 rows. -/
theorem c8_order_and_cap (albums : List AlbumRow) (q : String) (sy sm : Option Nat) :
    (executeAlbumQuery albums q sy sm).length ≤ 200 ∧
    (executeAlbumQuery albums q sy sm).Pairwise
      (fun a b => releaseDescLE a b = true) := by
  constructor
  · rw [executeAlbumQuery]
    simp [List.length_take]
  · rw [executeAlbumQuery]
    exact (List.sorted_mergeSort releaseDescLE_trans releaseDescLE_total _).sublist
      (List.take_sublist 200 _)

/-- Row of the `album_release_buckets` view. -/
structure BucketRow where
  year : Int
  month : Int
  month_name : Option String
deriving Repr, DecidableEq

/-- The data store as the page sees it: the buckets view, the albums table
and the likes table (`user_id`, `album_id`). -/
structure Db where
  buckets : List BucketRow
  albums : List AlbumRow
  likes : List (String × Int)

/-- Injected failure of each of the page's four queries (`none` = the query
succeeds). -/
structure QueryFaults where
  bucketsErr : Option String
  albumsErr : Option String
  likesErr : Option String
  myLikesErr : Option String

/-- Outcome of rendering the listing page: one of the two early-returned
error states, or the album list together with the like counts and the
current user's liked set. -/
inductive PageResult where
  | filterOptionsError : String → PageResult
  | albumsError : String → PageResult
  | listing : List AlbumRow → List (Int × Nat) → List Int → PageResult
deriving Repr, DecidableEq

/-- Run one query against its result rows, or fail with the injected
error. -/
def runQuery {α : Type} (fault : Option String) (rows : α) : Except String α :=
  match fault with
  | some e => Except.error e
  | none => Except.ok rows

/-- `String.prototype.trim`: strip whitespace from both ends. -/
def trimString (s : String) : String :=
  String.mk (((s.data.dropWhile Char.isWhitespace).reverse.dropWhile
    Char.isWhitespace).reverse)

/-- The page's `parseFirst` for a scalar-or-absent query parameter:
`(v ?? "").trim()`. -/
def parseFirst (v : Option String) : String :=
  trimString (v.getD "")

/-- The likes-count query: `select album_id from likes where album_id in
albumIds`. -/
def likesQuery (likes : List (String × Int)) (ids : List Int) : List Int :=
  (likes.filter (fun l => ids.contains l.2)).map (fun l => l.2)

/-- The my-likes query: additionally `eq("user_id", user.id)`. -/
def myLikesQuery (likes : List (String × Int)) (uid : String)
    (ids : List Int) : List Int :=
  (likes.filter (fun l => l.1 == uid && ids.contains l.2)).map (fun l => l.2)

/-- One step of the page's counting loop:
`likeCounts.set(id, (likeCounts.get(id) ?? 0) + 1)` on an association list
preserving the Map's insertion order. -/
def bumpCount (m : List (Int × Nat)) (id : Int) : List (Int × Nat) :=
  if m.any (fun e => e.1 == id) then
    m.map (fun e => if e.1 == id then (e.1, e.2 + 1) else e)
  else m ++ [(id, 1)]

/-- The like-count mapping built from the fetched like rows. -/
def likeCountsOf (rows : List Int) : List (Int × Nat) :=
  rows.foldl bumpCount []

/-- `likeCounts.get(id) ?? 0`. -/
def lookupCount (m : List (Int × Nat)) (id : Int) : Nat :=
  match m.find? (fun e => e.1 == id) with
  | some e => e.2
  | none => 0

/-- The listing page (part_000 `AlbumsPage`): parse the parameters, fetch
the buckets view (error state on failure), run the album query (error state
on failure), then best-effort fetch the like rows and, for a signed-in user
with a non-empty album list, the user's own likes. -/
def albumsPage (db : Db) (faults : QueryFaults) (user : Option String)
    (qParam yearParam monthParam : Option String) : PageResult :=
  let q := parseFirst qParam
  let selectedYear := toSelected (parseFirst yearParam)
  let selectedMonth := toSelected (parseFirst monthParam)
  match runQuery faults.bucketsErr db.buckets with
  | Except.error e => PageResult.filterOptionsError e
  | Except.ok _ =>
    match runQuery faults.albumsErr
        (executeAlbumQuery db.albums q selectedYear selectedMonth) with
    | Except.error e => PageResult.albumsError e
    | Except.ok albums =>
      let albumIds := albums.map (fun a => a.id)
      let likeRows :=
        match runQuery faults.likesErr (likesQuery db.likes albumIds) with
        | Except.error _ => []
        | Except.ok rows => rows
      let myLiked :=
        match user with
        | some uid =>
          if albumIds.isEmpty then []
          else
            match runQuery faults.myLikesErr
                (myLikesQuery db.likes uid albumIds) with
            | Except.error _ => []
            | Except.ok rows => rows
        | none => []
      PageResult.listing albums (likeCountsOf likeRows) myLiked

lemma likesQuery_subset (likes : List (String × Int)) (ids : List Int) :
    ∀ x ∈ likesQuery likes ids, x ∈ ids := by
  intro x hx
  obtain ⟨l, hl, rfl⟩ := List.mem_map.mp hx
  have hf := List.of_mem_filter hl
  simpa [List.elem_iff] using hf

lemma myLikesQuery_subset (likes : List (String × Int)) (uid : String)
    (ids : List Int) : ∀ x ∈ myLikesQuery likes uid ids, x ∈ ids := by
  intro x hx
  obtain ⟨l, hl, rfl⟩ := List.mem_map.mp hx
  have hf := List.of_mem_filter hl
  rw [Bool.and_eq_true] at hf
  simpa [List.elem_iff] using hf.2

lemma bumpCount_keys {y : Int} {m : List (Int × Nat)} {id : Int}
    (h : y ∈ (bumpCount m id).map Prod.fst) : y ∈ m.map Prod.fst ∨ y = id := by
  unfold bumpCount at h
  by_cases hc : m.any (fun e => e.1 == id) = true
  · rw [if_pos hc] at h
    obtain ⟨x, hx, he⟩ := List.mem_map.mp h
    obtain ⟨w, hw, hwe⟩ := List.mem_map.mp hx
    left
    apply List.mem_map.mpr
    refine ⟨w, hw, ?_⟩
    have hxw : x.1 = w.1 := by
      rw [← hwe]
      by_cases hxid : (w.1 == id) = true
      · rw [if_pos hxid]
      · rw [if_neg hxid]
    rw [← he, hxw]
  · rw [if_neg hc] at h
    rw [List.map_append, List.mem_append] at h
    rcases h with h | h
    · left
      exact h
    · right
      simpa using h

lemma foldl_bumpCount_keys (rows : List Int) :
    ∀ (acc : List (Int × Nat)) (e : Int × Nat), e ∈ rows.foldl bumpCount acc →
      e.1 ∈ acc.map Prod.fst ∨ e.1 ∈ rows := by
  induction rows with
  | nil =>
    intro acc e h
    left
    exact List.mem_map_of_mem _ h
  | cons r rs ih =>
    intro acc e h
    rcases ih (bumpCount acc r) e h with h2 | h2
    · rcases bumpCount_keys h2 with h3 | h3
      · left
        exact h3
      · right
        rw [h3]
        exact List.mem_cons_self r rs
    · right
      exact List.mem_cons_of_mem r h2

lemma likeCountsOf_keys (rows : List Int) (e : Int × Nat)
    (h : e ∈ likeCountsOf rows) : e.1 ∈ rows := by
  rcases foldl_bumpCount_keys rows [] e h with h2 | h2
  · simp at h2
  · exact h2

/-- C5: the like-count mapping only carries keys from the displayed album
set, the current user's liked set only carries displayed album identifiers,
and the liked set is empty when nobody is signed in. -/
theorem c5_scoping (db : Db) (faults : QueryFaults) (user : Option String)
    (qP yP mP : Option String) (albums : List AlbumRow)
    (counts : List (Int × Nat)) (liked : List Int)
    (h : albumsPage db faults user qP yP mP =
      PageResult.listing albums counts liked) :
    (∀ e ∈ counts, e.1 ∈ albums.map (fun a => a.id)) ∧
    (∀ id ∈ liked, id ∈ albums.map (fun a => a.id)) ∧
    (user = none → liked = []) := by
  unfold albumsPage at h
  cases hb : faults.bucketsErr with
  | some e =>
    rw [hb] at h
    cases h
  | none =>
    rw [hb] at h
    cases ha : faults.albumsErr with
    | some e =>
      rw [ha] at h
      cases h
    | none =>
      rw [ha] at h
      simp only [runQuery] at h
      obtain ⟨h1, h2, h3⟩ := PageResult.listing.inj h
      refine ⟨?_, ?_, ?_⟩
      · intro e he
        rw [← h2] at he
        rw [← h1]
        cases hl : faults.likesErr with
        | some er =>
          rw [hl] at he
          simp [runQuery, likeCountsOf] at he
        | none =>
          rw [hl] at he
          simp only [runQuery] at he
          exact likesQuery_subset db.likes _ e.1 (likeCountsOf_keys _ e he)
      · intro id hid
        rw [← h3] at hid
        rw [← h1]
        cases user with
        | none => simp at hid
        | some uid =>
          simp only at hid
          split at hid
          · simp at hid
          · cases hm : faults.myLikesErr with
            | some er =>
              rw [hm] at hid
              simp [runQuery] at hid
            | none =>
              rw [hm] at hid
              simp only [runQuery] at hid
              exact myLikesQuery_subset db.likes uid _ id hid
      · intro hu
        subst hu
        exact h3.symm

theorem c5_scoping_witness :
    albumsPage ⟨[], [], [("u", 1)]⟩ ⟨none, none, none, none⟩ none
        none none none =
      PageResult.listing [] [] [] ∧
    (∀ e ∈ ([] : List (Int × Nat)), e.1 ∈ ([] : List AlbumRow).map (fun a => a.id)) := by
  have hpage : albumsPage ⟨[], [], [("u", 1)]⟩ ⟨none, none, none, none⟩ none
      none none none = PageResult.listing [] [] [] := by
    simp [albumsPage, runQuery, executeAlbumQuery, likesQuery, likeCountsOf]
  refine ⟨hpage, ?_⟩
  exact (c5_scoping ⟨[], [], [("u", 1)]⟩ ⟨none, none, none, none⟩ none
    none none none [] [] [] hpage).1

/-- C7: a failing like-count query is best-effort — the page still renders
the album list with an empty count mapping, so every album shows a count of
zero — while a failing album query aborts into the albums error state. -/
theorem c7_count_failure_best_effort (db : Db) (faults : QueryFaults)
    (user : Option String) (qP yP mP : Option String) :
    (∀ e, faults.bucketsErr = none → faults.albumsErr = none →
      faults.likesErr = some e →
      ∃ liked, albumsPage db faults user qP yP mP =
        PageResult.listing
          (executeAlbumQuery db.albums (parseFirst qP)
            (toSelected (parseFirst yP)) (toSelected (parseFirst mP)))
          [] liked ∧
        (∀ id : Int, lookupCount [] id = 0)) ∧
    (∀ e, faults.bucketsErr = none → faults.albumsErr = some e →
      albumsPage db faults user qP yP mP = PageResult.albumsError e) := by
  constructor
  · intro e hb ha hl
    unfold albumsPage
    rw [hb, ha, hl]
    exact ⟨_, rfl, fun id => rfl⟩
  · intro e hb ha
    unfold albumsPage
    rw [hb, ha]
    rfl

theorem c7_count_failure_best_effort_witness :
    (∃ liked, albumsPage ⟨[], [], []⟩ ⟨none, none, some "x", none⟩ none
        none none none =
      PageResult.listing (executeAlbumQuery [] (parseFirst none)
        (toSelected (parseFirst none)) (toSelected (parseFirst none))) [] liked ∧
      (∀ id : Int, lookupCount [] id = 0)) ∧
    albumsPage ⟨[], [], []⟩ ⟨none, some "y", none, none⟩ none none none none =
      PageResult.albumsError "y" :=
  ⟨(c7_count_failure_best_effort ⟨[], [], []⟩ ⟨none, none, some "x", none⟩
      none none none none).1 "x" rfl rfl rfl,
   (c7_count_failure_best_effort ⟨[], [], []⟩ ⟨none, some "y", none, none⟩
      none none none none).2 "y" rfl rfl⟩

/-- C10: a failing release-bucket (filter-options) query aborts the page
into the filter-options error state — unlike the like-count query it is not
best-effort, and the album list is never rendered. -/
theorem c10_buckets_error (db : Db) (faults : QueryFaults) (user : Option String)
    (qP yP mP : Option String) (e : String) (h : faults.bucketsErr = some e) :
    albumsPage db faults user qP yP mP = PageResult.filterOptionsError e ∧
    ∀ albums counts liked,
      albumsPage db faults user qP yP mP ≠ PageResult.listing albums counts liked := by
  have h1 : albumsPage db faults user qP yP mP = PageResult.filterOptionsError e := by
    unfold albumsPage
    rw [h]
    rfl
  refine ⟨h1, ?_⟩
  intro albums counts liked heq
  rw [h1] at heq
  cases heq

theorem c10_buckets_error_witness :
    (⟨some "boom", none, none, none⟩ : QueryFaults).bucketsErr = some "boom" ∧
    albumsPage ⟨[], [], []⟩ ⟨some "boom", none, none, none⟩ none none none none =
      PageResult.filterOptionsError "boom" :=
  ⟨rfl, (c10_buckets_error ⟨[], [], []⟩ ⟨some "boom", none, none, none⟩
    none none none none "boom" rfl).1⟩

/-- C9: a month parameter without a year parameter is tolerated — the date
filter collapses to no restriction, the date predicate accepts every row,
and the page still produces a listing (no validation error exists). -/
theorem c9_month_without_year (db : Db) (user : Option String)
    (qP mP : Option String) (sm : Option Nat) :
    dateFilter none sm = none ∧
    (∀ a : AlbumRow,
      datePred (dateFilter (toSelected (parseFirst (none : Option String)))
        (toSelected (parseFirst mP)) ) a = true) ∧
    (∃ albums counts liked,
      albumsPage db ⟨none, none, none, none⟩ user qP none mP =
        PageResult.listing albums counts liked) := by
  refine ⟨rfl, fun a => rfl, ?_⟩
  unfold albumsPage
  exact ⟨_, _, _, rfl⟩

/-- Insert into the `likes` table: an injected store failure is reported
as-is; otherwise the table's uniqueness constraint rejects an existing
(user, album) pair with Postgres error code 23505 and anything else is
appended. -/
def insertLike (st : List (String × Int)) (uid : String) (albumId : Int)
    (fault : Option (String × String)) :
    Except (String × String) (List (String × Int)) :=
  match fault with
  | some e => Except.error e
  | none =>
    if (uid, albumId) ∈ st then
      Except.error ("23505", "duplicate key value violates unique constraint")
    else Except.ok ((uid, albumId) :: st)

/-- Delete from the `likes` table the rows matching
`eq("album_id", albumId)` and `eq("user_id", uid)`. -/
def deleteLike (st : List (String × Int)) (uid : String) (albumId : Int)
    (fault : Option (String × String)) :
    Except (String × String) (List (String × Int)) :=
  match fault with
  | some e => Except.error e
  | none => Except.ok (st.filter (fun r => !(r.1 == uid && r.2 == albumId)))

/-- The `likeAlbum` server action (actions.ts lines 6–24): fail when no
user is signed in, insert the like, swallow only a 23505 (duplicate)
failure, surface any other failure message; returns the action outcome and
the resulting likes table. -/
def likeAlbum (user : Option String) (albumId : Int)
    (fault : Option (String × String)) (st : List (String × Int)) :
    Except String Unit × List (String × Int) :=
  match user with
  | none => (Except.error "Not signed in", st)
  | some uid =>
    match insertLike st uid albumId fault with
    | Except.ok st2 => (Except.ok (), st2)
    | Except.error e =>
      if e.1 != "23505" then (Except.error e.2, st)
      else (Except.ok (), st)

/-- The `unlikeAlbum` server action (actions.ts lines 26–42): fail when no
user is signed in, delete the matching like rows, surface any failure
message. -/
def unlikeAlbum (user : Option String) (albumId : Int)
    (fault : Option (String × String)) (st : List (String × Int)) :
    Except String Unit × List (String × Int) :=
  match user with
  | none => (Except.error "Not signed in", st)
  | some uid =>
    match deleteLike st uid albumId fault with
    | Except.ok st2 => (Except.ok (), st2)
    | Except.error e => (Except.error e.2, st)

/-- Number of Like rows for one (user, album) pair. -/
def countPair (st : List (String × Int)) (uid : String) (albumId : Int) : Nat :=
  (st.filter (fun r => r.1 == uid && r.2 == albumId)).length

/-- C3: without an authenticated session both actions fail with
"Not signed in" and leave the likes table untouched. -/
theorem c3_unauthenticated_actions (albumId : Int)
    (fault : Option (String × String)) (st : List (String × Int)) :
    likeAlbum none albumId fault st = (Except.error "Not signed in", st) ∧
    unlikeAlbum none albumId fault st = (Except.error "Not signed in", st) :=
  ⟨rfl, rfl⟩

/-- C4: liking an already-liked album trips the uniqueness constraint, the
23505 failure is swallowed, the action succeeds and exactly one Like row
remains for the pair; an insert failure with any other code aborts the
action with that failure's message and leaves the table unchanged. -/
theorem c4_like_idempotent (uid : String) (albumId : Int)
    (st : List (String × Int)) (hdup : (uid, albumId) ∈ st)
    (huniq : countPair st uid albumId = 1) :
    (likeAlbum (some uid) albumId none st).1 = Except.ok () ∧
    countPair (likeAlbum (some uid) albumId none st).2 uid albumId = 1 ∧
    (∀ code msg, code ≠ "23505" →
      likeAlbum (some uid) albumId (some (code, msg)) st =
        (Except.error msg, st)) := by
  have hins : insertLike st uid albumId none =
      Except.error ("23505", "duplicate key value violates unique constraint") := by
    rw [insertLike]
    rw [if_pos hdup]
  have hlike : likeAlbum (some uid) albumId none st = (Except.ok (), st) := by
    rw [likeAlbum, hins]
    rfl
  refine ⟨by rw [hlike], by rw [hlike]; exact huniq, ?_⟩
  intro code msg hcode
  rw [likeAlbum, insertLike]
  have hbne : (code != "23505") = true := by
    simpa using hcode
  simp [hbne]

theorem c4_like_idempotent_witness :
    (("u", (1 : Int)) ∈ [("u", (1 : Int))] ∧
      countPair [("u", (1 : Int))] "u" 1 = 1) ∧
    (likeAlbum (some "u") 1 none [("u", (1 : Int))]).1 = Except.ok () ∧
    countPair (likeAlbum (some "u") 1 none [("u", (1 : Int))]).2 "u" 1 = 1 :=
  ⟨⟨by decide, by decide⟩,
   (c4_like_idempotent "u" 1 [("u", 1)] (by decide) (by decide)).1,
   (c4_like_idempotent "u" 1 [("u", 1)] (by decide) (by decide)).2.1⟩

/-- Outcomes of the identity-provider and profile steps the callback can
take, as the handler observes them. -/
structure CallbackEnv where
  exchangeErr : Option String
  getUserErr : Option String
  user : Option String
  profileUpsertErr : Option String

/-- External calls the callback handler can make, in order. -/
inductive AuthStep where
  | exchangeCode : AuthStep
  | fetchUser : AuthStep
  | upsertProfile : AuthStep
deriving Repr, DecidableEq

/-- The OAuth callback handler (route.ts `GET`): redirect target together
with the trace of external calls actually made. -/
def callbackGET (origin : String) (code : Option String) (env : CallbackEnv) :
    String × List AuthStep :=
  match code with
  | none => (origin ++ "/albums", [])
  | some _ =>
    match env.exchangeErr with
    | some _ => (origin ++ "/login?error=exchange_failed", [AuthStep.exchangeCode])
    | none =>
      match env.getUserErr with
      | some _ => (origin ++ "/login?error=get_user_failed",
          [AuthStep.exchangeCode, AuthStep.fetchUser])
      | none =>
        match env.user with
        | none => (origin ++ "/login?error=no_user",
            [AuthStep.exchangeCode, AuthStep.fetchUser])
        | some _ =>
          match env.profileUpsertErr with
          | some _ => (origin ++ "/login?error=profile_upsert_failed",
              [AuthStep.exchangeCode, AuthStep.fetchUser, AuthStep.upsertProfile])
          | none => (origin ++ "/albums",
              [AuthStep.exchangeCode, AuthStep.fetchUser, AuthStep.upsertProfile])

/-- C6: without a code the callback redirects to /albums having contacted
nothing; with a code, the first failing step determines exactly which
coarse reason code the /login redirect carries, and full success redirects
to /albums. -/
theorem c6_callback_redirects (origin : String) (env : CallbackEnv) (c : String) :
    (callbackGET origin none env = (origin ++ "/albums", [])) ∧
    (∀ e, env.exchangeErr = some e →
      callbackGET origin (some c) env =
        (origin ++ "/login?error=exchange_failed", [AuthStep.exchangeCode])) ∧
    (env.exchangeErr = none → ∀ e, env.getUserErr = some e →
      (callbackGET origin (some c) env).1 = origin ++ "/login?error=get_user_failed") ∧
    (env.exchangeErr = none → env.getUserErr = none → env.user = none →
      (callbackGET origin (some c) env).1 = origin ++ "/login?error=no_user") ∧
    (env.exchangeErr = none → env.getUserErr = none → ∀ u, env.user = some u →
      ∀ e, env.profileUpsertErr = some e →
      (callbackGET origin (some c) env).1 =
        origin ++ "/login?error=profile_upsert_failed") ∧
    (env.exchangeErr = none → env.getUserErr = none → (∃ u, env.user = some u) →
      env.profileUpsertErr = none →
      (callbackGET origin (some c) env).1 = origin ++ "/albums") := by
  refine ⟨rfl, ?_, ?_, ?_, ?_, ?_⟩
  · intro e he
    unfold callbackGET
    rw [he]
  · intro h1 e h2
    unfold callbackGET
    rw [h1, h2]
  · intro h1 h2 h3
    unfold callbackGET
    rw [h1, h2, h3]
  · intro h1 h2 u h3 e h4
    unfold callbackGET
    rw [h1, h2, h3, h4]
  · rintro h1 h2 ⟨u, h3⟩ h4
    unfold callbackGET
    rw [h1, h2, h3, h4]

theorem c6_callback_redirects_witness :
    callbackGET "https://app" none ⟨none, none, none, none⟩ =
      ("https://app" ++ "/albums", []) ∧
    callbackGET "https://app" (some "c") ⟨some "bad", none, none, none⟩ =
      ("https://app" ++ "/login?error=exchange_failed", [AuthStep.exchangeCode]) ∧
    (callbackGET "https://app" (some "c") ⟨none, none, some "uid", none⟩).1 =
      "https://app" ++ "/albums" :=
  ⟨(c6_callback_redirects "https://app" ⟨none, none, none, none⟩ "c").1,
   (c6_callback_redirects "https://app" ⟨some "bad", none, none, none⟩ "c").2.1
     "bad" rfl,
   (c6_callback_redirects "https://app" ⟨none, none, some "uid", none⟩ "c").2.2.2.2.2
     rfl rfl ⟨"uid", rfl⟩ rfl⟩

end AlbumShare
